import Mathlib

/-!
Verification development for the azure-resourcemanager-exporter repository.

The two source components are embedded shallowly:

* `portscanner.go` — the port-scan orchestrator (`Portscanner`): its scan-result
  cache `List : map[string][]PortscannerResult`, its discovery set
  `PublicIps : map[string]network.PublicIPAddress`, and the operations
  `Cleanup`, `addResults`, `pushResults`, `Publish`, `CacheLoad`, `CacheSave`,
  `Enable`, `scanIp` and `Start`.
* the metrics-collection file (`initMetricsAzureRm` /
  `runMetricsCollectionAzureRm` and the per-type collectors) — embedded as a
  deterministic state-transformer over a record of gauge vectors.

Go maps are modelled as association lists (`List (key × value)`) with
first-match lookup; all operations preserve key uniqueness when the input is
key-unique, and the theorems below are stated for arbitrary association lists.
Callbacks (`Callbacks.ResultPush` etc.) carry no behaviour of their own in the
source (they are injected by the caller), so they are modelled as an emitted
event trace: each operation returns, next to the new state, the list of
callback invocations it performed, in order.
-/

/-- First-match lookup in an association list; models Go map indexing `m[k]`. -/
def mapLookup [DecidableEq α] (k : α) : List (α × β) → Option β
  | [] => none
  | kv :: rest => if kv.1 = k then some kv.2 else mapLookup k rest

/-- Key membership, models Go `_, ok := m[k]`. -/
def mapMem [DecidableEq α] (k : α) (m : List (α × β)) : Bool :=
  (mapLookup k m).isSome

/-- Insert-or-replace, models Go map assignment `m[k] = v`. -/
def mapInsert [DecidableEq α] (k : α) (v : β) : List (α × β) → List (α × β)
  | [] => [(k, v)]
  | kv :: rest => if kv.1 = k then (k, v) :: rest else kv :: mapInsert k v rest

/-- Key deletion, models Go `delete(m, k)`. -/
def mapDelete [DecidableEq α] (k : α) (m : List (α × β)) : List (α × β) :=
  m.filter (fun kv => decide (kv.1 ≠ k))

/-- The keys of a Go map (iteration of `for k := range m`). -/
def mapKeys (m : List (α × β)) : List α :=
  m.map Prod.fst

/-- Merge `new` into `old`, entry by entry, overwriting entries of `old` whose
key also occurs in `new`.  This is the documented behaviour of Go
`encoding/json.Unmarshal` when the destination struct field already holds a
non-nil map: existing entries are kept, decoded entries are inserted over
them. -/
def mergeMap [DecidableEq α] (old new : List (α × β)) : List (α × β) :=
  new.foldl (fun acc kv => mapInsert kv.1 kv.2 acc) old

/-- Label set of one scan-result gauge sample (`prometheus.Labels` built in
`scanIp`). -/
structure ScanLabels where
  ipAddress : String
  protocol : String
  port : String
  description : String
deriving DecidableEq, Repr

/-- `PortscannerResult` of portscanner.go: one open port found on an address.
`Value` is the gauge value (`float64` in the source, always set to the integer
`1`; modelled as `Int`). -/
structure PortscannerResult where
  IpAddress : String
  Labels : ScanLabels
  Value : Int
deriving DecidableEq, Repr

/-- `network.PublicIPAddress`, restricted to the one field portscanner.go
reads: the (possibly nil) `IPAddress` string pointer. -/
structure PublicIPAddress where
  IPAddress : Option String
deriving DecidableEq, Repr

/-- Models `to.String(pip.IPAddress)`: dereference, with nil mapped to "". -/
def pipIp (pip : PublicIPAddress) : String :=
  pip.IPAddress.getD ""

/-- The `Portscanner` struct: scan-result cache `List`, discovery set
`PublicIps`, and the `Enabled` gate.  The mutex, logger and callback record
are not data (callback invocations are returned as event traces). -/
structure Portscanner where
  Enabled : Bool
  PublicIps : List (String × PublicIPAddress)
  List : List (String × List PortscannerResult)
deriving DecidableEq, Repr

/-- One callback invocation performed by a `Portscanner` operation. -/
inductive Event
  | startupScan
  | finishScan
  | startScanIp (ip : String)
  | finishScanIp (ip : String)
  | resultCleanup
  | resultPush (r : PortscannerResult)
deriving DecidableEq, Repr

/-- `Init()`: the freshly initialised `Portscanner` (disabled, empty cache,
empty discovery set). -/
def Portscanner.Init : Portscanner :=
  { Enabled := false, PublicIps := [], List := [] }

/-- `Enable()`: flips the boolean gate. -/
def Enable (c : Portscanner) : Portscanner :=
  { c with Enabled := true }

/-- `SetAzurePublicIpList(pipList)`: builds a fresh address map keyed by
`to.String(pip.IPAddress)` and replaces `PublicIps` wholesale. -/
def SetAzurePublicIpList (c : Portscanner) (pipList : List PublicIPAddress) :
    Portscanner :=
  { c with PublicIps := pipList.foldl (fun acc pip => mapInsert (pipIp pip) pip acc) [] }

/-- `pushResults()`: walk the cache and invoke `Callbacks.ResultPush` once per
cached `PortscannerResult`.  Returns the trace of those invocations.  The
source ranges over a Go map, whose iteration order is randomized afresh on
every `range`; this function walks the given entry list in its own order, and
the randomization is modelled by applying it to an arbitrary permutation of
the cache entries (`IterOrder` / `publishTraceIter` below). -/
def pushResults : List (String × List PortscannerResult) → List Event
  | [] => []
  | kv :: rest => kv.2.map Event.resultPush ++ pushResults rest

/-- `addResults(pip, results)`: replace the cache entry for the address of
`pip` with `results`, then call `pushResults` (all under the lock). -/
def addResults (c : Portscanner) (pip : PublicIPAddress)
    (results : List PortscannerResult) : Portscanner × List Event :=
  let ipAddress := pipIp pip
  let c1 : Portscanner := { c with List := mapInsert ipAddress results c.List }
  (c1, pushResults c1.List)

/-- `Cleanup()`: collect every cache key absent from `PublicIps` into
`orphanedIpList`, then delete those keys from the cache — the two-phase loop
of the source. -/
def Cleanup (c : Portscanner) : Portscanner :=
  let orphanedIpList := (mapKeys c.List).filter (fun ip => !(mapMem ip c.PublicIps))
  { c with List := orphanedIpList.foldl (fun acc ip => mapDelete ip acc) c.List }

/-- `Publish()`: invoke the `ResultCleanup` callback, then `pushResults`,
under the lock.  The `Portscanner` state itself is not mutated. -/
def Publish (c : Portscanner) : Portscanner × List Event :=
  (c, Event.resultCleanup :: pushResults c.List)

/-- Number of `ResultPush` invocations in a trace. -/
def countResultPush : List Event → Nat
  | [] => 0
  | Event.resultPush _ :: rest => countResultPush rest + 1
  | _ :: rest => countResultPush rest

/-- Total number of `PortscannerResult`s held in a cache. -/
def totalResults (m : List (String × List PortscannerResult)) : Nat :=
  (m.map (fun kv => kv.2.length)).sum

/-! Association-list lemmas. -/

theorem mapLookup_filter [DecidableEq α] (p : α → Bool) (k : α) :
    ∀ m : List (α × β),
      mapLookup k (m.filter (fun kv => p kv.1)) =
        if p k then mapLookup k m else none := by
  intro m
  induction m with
  | nil => simp [mapLookup]
  | cons kv rest ih =>
    by_cases hk : kv.1 = k
    · subst hk
      cases hp : p kv.1 <;> simp [List.filter_cons, hp, mapLookup, ih]
    · cases hp : p kv.1 <;> simp [List.filter_cons, hp, mapLookup, hk, ih]

theorem mapLookup_mapInsert [DecidableEq α] (k k' : α) (v : β) :
    ∀ m : List (α × β),
      mapLookup k (mapInsert k' v m) =
        if k' = k then some v else mapLookup k m := by
  intro m
  induction m with
  | nil => simp [mapInsert, mapLookup]
  | cons kv rest ih =>
    simp only [mapInsert]
    by_cases h1 : kv.1 = k'
    · rw [if_pos h1]
      by_cases h2 : k' = k
      · subst h2
        simp [mapLookup]
      · have h3 : ¬kv.1 = k := fun hc => h2 (h1.symm.trans hc)
        simp [mapLookup, h2, h3]
    · rw [if_neg h1]
      by_cases h3 : kv.1 = k
      · have h2 : ¬k' = k := fun hc => h1 (h3.trans hc.symm)
        simp [mapLookup, h3, h2]
      · simp [mapLookup, h3, ih]

/-- Folding `mapDelete` over a key list is filtering by non-membership of the
key in that list. -/
theorem foldl_mapDelete_eq_filter [DecidableEq α] :
    ∀ (ks : List α) (m : List (α × β)),
      ks.foldl (fun acc k => mapDelete k acc) m =
        m.filter (fun kv => !(decide (kv.1 ∈ ks))) := by
  intro ks
  induction ks with
  | nil => intro m; simp
  | cons k rest ih =>
    intro m
    simp only [List.foldl_cons]
    rw [ih]
    simp only [mapDelete, List.filter_filter]
    apply List.filter_congr
    intro kv _
    by_cases h1 : kv.1 = k <;> by_cases h2 : kv.1 ∈ rest <;> simp [h1, h2]

/-- The cache after `Cleanup` is the original cache filtered to keys of the
discovery set. -/
theorem Cleanup_List_eq_filter (c : Portscanner) :
    (Cleanup c).List = c.List.filter (fun kv => mapMem kv.1 c.PublicIps) := by
  simp only [Cleanup]
  rw [foldl_mapDelete_eq_filter]
  apply List.filter_congr
  intro kv hkv
  have hk : kv.1 ∈ mapKeys c.List := List.mem_map_of_mem Prod.fst hkv
  cases hm : mapMem kv.1 c.PublicIps <;> simp [List.mem_filter, hm, hk]

/-- C1: after `Cleanup()` every key of the scan-result cache `List` is a key
of the discovery set `PublicIps`; `Cleanup` removes exactly the cache entries
whose address is absent from the discovery set, leaves all other entries (and
their order) unchanged, and touches neither `PublicIps` nor `Enabled`. -/
theorem cleanup_removes_exactly_orphans (c : Portscanner) :
    (Cleanup c).List = c.List.filter (fun kv => mapMem kv.1 c.PublicIps)
  ∧ (∀ k : String, mapLookup k (Cleanup c).List =
      if mapMem k c.PublicIps then mapLookup k c.List else none)
  ∧ (mapKeys (Cleanup c).List).all (fun k => mapMem k c.PublicIps) = true
  ∧ (Cleanup c).PublicIps = c.PublicIps
  ∧ (Cleanup c).Enabled = c.Enabled := by
  refine ⟨Cleanup_List_eq_filter c, ?_, ?_, rfl, rfl⟩
  · intro k
    rw [Cleanup_List_eq_filter]
    exact mapLookup_filter (fun x => mapMem x c.PublicIps) k c.List
  · rw [Cleanup_List_eq_filter]
    simp only [mapKeys, List.all_eq_true, List.mem_map]
    rintro k ⟨kv, hkv, rfl⟩
    exact (List.mem_filter.mp hkv).2

/-- C2: `addResults(A, R)` replaces the cache entry for the address of `A`
wholesale with `R` (reading it back returns exactly `R`, never a merge with a
previous result set), leaves the entries of every other address unchanged, and
touches neither `PublicIps` nor `Enabled`. -/
theorem addResults_wholesale_replace (c : Portscanner) (pip : PublicIPAddress)
    (results : List PortscannerResult) :
    (∀ k : String, mapLookup k (addResults c pip results).1.List =
        if pipIp pip = k then some results else mapLookup k c.List)
  ∧ (addResults c pip results).1.PublicIps = c.PublicIps
  ∧ (addResults c pip results).1.Enabled = c.Enabled := by
  refine ⟨?_, rfl, rfl⟩
  intro k
  simp only [addResults]
  rw [mapLookup_mapInsert]

theorem pushResults_eq_join (m : List (String × List PortscannerResult)) :
    pushResults m = (m.map (fun kv => kv.2.map Event.resultPush)).flatten := by
  induction m with
  | nil => rfl
  | cons kv rest ih => simp [pushResults, ih]

theorem countResultPush_append (a b : List Event) :
    countResultPush (a ++ b) = countResultPush a + countResultPush b := by
  induction a with
  | nil => simp [countResultPush]
  | cons e rest ih => cases e <;> simp [countResultPush, ih] <;> omega

theorem countResultPush_map_resultPush (rs : List PortscannerResult) :
    countResultPush (rs.map Event.resultPush) = rs.length := by
  induction rs with
  | nil => rfl
  | cons r rest ih => simp [countResultPush, ih]

theorem countResultPush_pushResults (m : List (String × List PortscannerResult)) :
    countResultPush (pushResults m) = totalResults m := by
  induction m with
  | nil => rfl
  | cons kv rest ih =>
    simp [pushResults, countResultPush_append, countResultPush_map_resultPush,
      totalResults, ih]

/-- `order` is a possible iteration order of the cache map of `c`: Go
randomizes map iteration order afresh on every `range`, so one `pushResults`
walk can observe any permutation of the entries. -/
abbrev IterOrder (c : Portscanner)
    (order : List (String × List PortscannerResult)) : Prop :=
  order.Perm c.List

/-- Event trace of one `Publish()` call whose `pushResults` loop walks the
cache map in iteration order `order` (the deterministic `Publish` above is
the special case walking in association-list order). -/
def publishTraceIter (order : List (String × List PortscannerResult)) :
    List Event :=
  Event.resultCleanup :: pushResults order

theorem pushResults_perm {m1 m2 : List (String × List PortscannerResult)}
    (h : m1.Perm m2) : (pushResults m1).Perm (pushResults m2) := by
  rw [pushResults_eq_join, pushResults_eq_join]
  exact List.Perm.flatten (h.map (fun kv => kv.2.map Event.resultPush))

theorem totalResults_perm {m1 m2 : List (String × List PortscannerResult)}
    (h : m1.Perm m2) : totalResults m1 = totalResults m2 := by
  simpa [totalResults] using (h.map (fun kv => kv.2.length)).sum_eq

/-- First scan result used in the C7 counterexample and witness. -/
def c7r1 : PortscannerResult :=
  { IpAddress := "10.0.0.1",
    Labels := { ipAddress := "10.0.0.1", protocol := "TCP", port := "22",
                description := "" },
    Value := 1 }

/-- Second scan result used in the C7 counterexample and witness. -/
def c7r2 : PortscannerResult :=
  { IpAddress := "10.0.0.2",
    Labels := { ipAddress := "10.0.0.2", protocol := "TCP", port := "443",
                description := "" },
    Value := 1 }

/-- Two-address portscanner state used in the C7 counterexample and witness. -/
def c7c : Portscanner :=
  { Enabled := true,
    PublicIps := [("10.0.0.1", PublicIPAddress.mk (some "10.0.0.1")),
                  ("10.0.0.2", PublicIPAddress.mk (some "10.0.0.2"))],
    List := [("10.0.0.1", [c7r1]), ("10.0.0.2", [c7r2])] }

/-- C7 counterexample: with two cached addresses, Go's randomized map
iteration lets two consecutive `Publish` calls walk the same unchanged cache
in different orders — both orders below are valid iterations of the cache of
`c7c` — and the two emitted sequences differ, refuting the same-order part of
the claim.  Only the multiset of emitted results is invariant. -/
theorem publish_order_not_guaranteed_counterexample :
    IterOrder c7c [("10.0.0.1", [c7r1]), ("10.0.0.2", [c7r2])]
  ∧ IterOrder c7c [("10.0.0.2", [c7r2]), ("10.0.0.1", [c7r1])]
  ∧ publishTraceIter [("10.0.0.1", [c7r1]), ("10.0.0.2", [c7r2])] ≠
      publishTraceIter [("10.0.0.2", [c7r2]), ("10.0.0.1", [c7r1])] :=
  ⟨by decide, by decide, by decide⟩

/-- C7 (amended): `Publish` does not mutate the portscanner state, so a
second call with no intervening scans or cache mutations reads the same
cache; each call walks the cache map in a fresh Go-randomized iteration
order, so the two emitted sequences are permutations of one another — the
same multiset of results, exactly one `ResultPush` invocation per cached
`ScanResult` (after the leading `ResultCleanup`) — but their order is not
guaranteed to coincide across the two calls. -/
theorem publish_twice_same_multiset (c : Portscanner)
    (order1 order2 : List (String × List PortscannerResult))
    (h1 : IterOrder c order1) (h2 : IterOrder c order2) :
    (Publish c).1 = c
  ∧ (publishTraceIter order2).Perm (publishTraceIter order1)
  ∧ countResultPush (publishTraceIter order1) = totalResults c.List
  ∧ countResultPush (publishTraceIter order2) = totalResults c.List := by
  refine ⟨rfl, ?_, ?_, ?_⟩
  · simp only [publishTraceIter]
    exact List.Perm.cons Event.resultCleanup (pushResults_perm (h2.trans h1.symm))
  · simp only [publishTraceIter, countResultPush]
    rw [countResultPush_pushResults]
    exact totalResults_perm h1
  · simp only [publishTraceIter, countResultPush]
    rw [countResultPush_pushResults]
    exact totalResults_perm h2

/-- Witness for C7 (amended): the two iteration orders of the cache of `c7c`
from the counterexample emit permuted traces with one push per cached
result. -/
theorem publish_twice_same_multiset_witness :
    (Publish c7c).1 = c7c
  ∧ (publishTraceIter [("10.0.0.2", [c7r2]), ("10.0.0.1", [c7r1])]).Perm
      (publishTraceIter [("10.0.0.1", [c7r1]), ("10.0.0.2", [c7r2])])
  ∧ countResultPush
      (publishTraceIter [("10.0.0.1", [c7r1]), ("10.0.0.2", [c7r2])]) =
      totalResults c7c.List
  ∧ countResultPush
      (publishTraceIter [("10.0.0.2", [c7r2]), ("10.0.0.1", [c7r1])]) =
      totalResults c7c.List :=
  publish_twice_same_multiset c7c
    [("10.0.0.1", [c7r1]), ("10.0.0.2", [c7r2])]
    [("10.0.0.2", [c7r2]), ("10.0.0.1", [c7r1])]
    (by decide) (by decide)

/-- C10: `addResults(A, R)` re-emits the entire cache, not only `R`: its event
trace is one `ResultPush` per `ScanResult` of every address in the updated
cache (including the new entry for `A`), flattened in cache order. -/
theorem addResults_reemits_entire_cache (c : Portscanner) (pip : PublicIPAddress)
    (results : List PortscannerResult) :
    (addResults c pip results).2 =
      ((mapInsert (pipIp pip) results c.List).map
        (fun kv => kv.2.map Event.resultPush)).flatten
  ∧ countResultPush (addResults c pip results).2 =
      totalResults (mapInsert (pipIp pip) results c.List) := by
  refine ⟨?_, ?_⟩
  · simp [addResults, pushResults_eq_join]
  · simp [addResults, countResultPush_pushResults]

/-- `scanIp(pip, timeout)`: re-checks that the address is still owned (present
in `PublicIps`), then probes the configured port ranges and builds one
`PortscannerResult` per open port found, with labels
`ipAddress/protocol="TCP"/port/description=""` and value 1.  The external probe
capability (`anvie/port-scanner` over the configured `portscanPortRange`) is
abstracted as `probe : String → List Nat`, the open ports found across all
configured ranges in order; elapsed wall-clock time is not modelled. -/
def scanIp (probe : String → List Nat) (c : Portscanner) (pip : PublicIPAddress) :
    List PortscannerResult :=
  let ipAddress := pipIp pip
  if mapMem ipAddress c.PublicIps then
    (probe ipAddress).map (fun port =>
      { IpAddress := ipAddress,
        Labels := { ipAddress := ipAddress, protocol := "TCP",
                    port := toString port, description := "" },
        Value := 1 })
  else []

/-- The scan loop of `Start()`: one task per entry of `PublicIps`, each
invoking the start/finish lifecycle callbacks around `scanIp` and then
`addResults`.  The bounded-concurrency pool is modelled by its deterministic
sequential schedule here (tasks in spawn order); the concurrency bound itself
is modelled by the `SwgStep` relation below. -/
def scanLoop (probe : String → List Nat) :
    List (String × PublicIPAddress) → Portscanner × List Event →
      Portscanner × List Event
  | [], acc => acc
  | kv :: rest, acc =>
    let pip := kv.2
    let results := scanIp probe acc.1 pip
    let pushed := addResults acc.1 pip results
    scanLoop probe rest
      (pushed.1,
       acc.2 ++ Event.startScanIp (pipIp pip) :: Event.finishScanIp (pipIp pip) :: pushed.2)

/-- `Start()`: `StartupScan` callback, `Cleanup` and `Publish`, then the scan
pass over `PublicIps`, then `Cleanup` and `Publish` again and the `FinishScan`
callback. -/
def Start (probe : String → List Nat) (c : Portscanner) : Portscanner × List Event :=
  let c1 := Cleanup c
  let p1 := Publish c1
  let looped := scanLoop probe c1.PublicIps (p1.1, [])
  let c2 := Cleanup looped.1
  let p2 := Publish c2
  (p2.1, Event.startupScan :: (p1.2 ++ looped.2 ++ p2.2 ++ [Event.finishScan]))

/-- Modelled from the spec: the caller-side gate on `Enabled` (the scan-pass
trigger loop in main.go, which is not under src/) runs `Start` only when the
portscanner has previously been enabled; per the spec, `RunScanPass` is a
no-op unless previously enabled. -/
def RunScanPass (probe : String → List Nat) (c : Portscanner) :
    Portscanner × List Event :=
  if c.Enabled then Start probe c else (c, [])

/-- C3: while `Enable()` has not been called (`Enabled = false`), running a
scan pass is a no-op — the state (cache and discovery set) is returned
unchanged and no callback fires, so no address is scanned and no result is
emitted. -/
theorem runScanPass_disabled_is_noop (probe : String → List Nat)
    (c : Portscanner) (h : c.Enabled = false) :
    RunScanPass probe c = (c, []) := by
  simp [RunScanPass, h]

/-- Witness for C3 at a concrete disabled portscanner with a non-empty cache
and discovery set. -/
theorem runScanPass_disabled_is_noop_witness :
    (Portscanner.mk false [("10.0.0.1", ⟨some "10.0.0.1"⟩)] [("10.0.0.1", [])]).Enabled
        = false
  ∧ RunScanPass (fun _ => [22])
      (Portscanner.mk false [("10.0.0.1", ⟨some "10.0.0.1"⟩)] [("10.0.0.1", [])]) =
      (Portscanner.mk false [("10.0.0.1", ⟨some "10.0.0.1"⟩)] [("10.0.0.1", [])], []) :=
  ⟨rfl, runScanPass_disabled_is_noop (fun _ => [22]) _ rfl⟩

/-- Content of the on-disk cache file: either bytes that fail to deserialize,
or a decodable snapshot of the two serialized fields of `Portscanner`
(`Enabled` and the callbacks carry a `json:"-"` tag and are not persisted). -/
inductive FileContent
  | corrupt
  | snap (cacheList : List (String × List PortscannerResult))
      (publicIps : List (String × PublicIPAddress))
deriving DecidableEq, Repr

/-- `CacheLoad(path)`: open the file (a failed open is `logger.Panic`,
modelled as `Except.error`), read it, and `json.Unmarshal` into the existing
struct.  Two source behaviours matter:

* contents that fail to deserialize only produce `logger.Errorf` — reported
  (the `Bool` of the result is `true`) but not fatal, and the prior
  in-memory cache is kept;
* on success, `json.Unmarshal` decodes into the struct's existing non-nil
  maps, which per the `encoding/json` contract keeps existing entries and
  overwrites only decoded keys — a merge (`mergeMap`), not a wholesale
  replacement.

Afterwards `Cleanup()` and `Publish()` run unconditionally.  The file system
is abstracted as `fs : String → Option FileContent`, `none` meaning the open
fails. -/
def CacheLoad (fs : String → Option FileContent) (path : String)
    (c : Portscanner) : Except String (Portscanner × List Event × Bool) :=
  match fs path with
  | none => Except.error "panic: cannot open portscanner cache"
  | some FileContent.corrupt =>
    let c2 := Cleanup c
    let p := Publish c2
    Except.ok (p.1, p.2, true)
  | some (FileContent.snap cacheList publicIps) =>
    let c1 : Portscanner :=
      { c with List := mergeMap c.List cacheList,
               PublicIps := mergeMap c.PublicIps publicIps }
    let c2 := Cleanup c1
    let p := Publish c2
    Except.ok (p.1, p.2, false)

/-- `CacheSave(path)`: marshal the struct (`List` and `PublicIps`) and write
it to the file; a write failure is `logger.Panic`, modelled as `Except.error`.
`writeOk` abstracts the outcome of `ioutil.WriteFile`. -/
def CacheSave (writeOk : Bool) (c : Portscanner) : Except String FileContent :=
  if writeOk then Except.ok (FileContent.snap c.List c.PublicIps)
  else Except.error "panic: cannot write portscanner cache"

/-- The in-memory state right after `json.Unmarshal` succeeds in `CacheLoad`:
both maps merged with the snapshot. -/
def cacheAfterUnmarshal (c : Portscanner)
    (cacheList : List (String × List PortscannerResult))
    (publicIps : List (String × PublicIPAddress)) : Portscanner :=
  { c with List := mergeMap c.List cacheList,
           PublicIps := mergeMap c.PublicIps publicIps }

/-- C5 counterexample: loading an empty snapshot over a non-empty in-memory
cache keeps the prior cache entry.  `json.Unmarshal` merges into the existing
maps, so an entry of the prior in-memory cache survives a load even though it
is not in the snapshot, contradicting the wholesale-replacement claim. -/
theorem cacheLoad_not_wholesale_counterexample :
    (CacheLoad (fun _ => some (FileContent.snap [] [])) "portscanner.json"
        { Enabled := true,
          PublicIps := [("10.0.0.1", { IPAddress := some "10.0.0.1" })],
          List := [("10.0.0.1",
            [{ IpAddress := "10.0.0.1",
               Labels := { ipAddress := "10.0.0.1", protocol := "TCP",
                           port := "22", description := "" },
               Value := 1 }])] }).map
        (fun res => mapLookup "10.0.0.1" res.1.List) =
      Except.ok (some
        [{ IpAddress := "10.0.0.1",
           Labels := { ipAddress := "10.0.0.1", protocol := "TCP",
                       port := "22", description := "" },
           Value := 1 }]) := by
  rfl

/-- C5 (amended): on a successfully deserialized snapshot, `CacheLoad` merges
the snapshot into the in-memory cache (snapshot entries overwrite same-key
entries; prior entries absent from the snapshot survive), then unconditionally
runs `Cleanup` followed by `Publish`; every cache key of the restored cache
that survives to the publish lies in the post-load discovery set, so restored
state never publishes a cache entry for an address absent from it. -/
theorem cacheLoad_merge_cleanup_publish
    (fs : String → Option FileContent) (path : String) (c : Portscanner)
    (cacheList : List (String × List PortscannerResult))
    (publicIps : List (String × PublicIPAddress))
    (h : fs path = some (FileContent.snap cacheList publicIps)) :
    CacheLoad fs path c =
      Except.ok
        ((Publish (Cleanup (cacheAfterUnmarshal c cacheList publicIps))).1,
         (Publish (Cleanup (cacheAfterUnmarshal c cacheList publicIps))).2,
         false)
  ∧ (Publish (Cleanup (cacheAfterUnmarshal c cacheList publicIps))).1.List =
      (mergeMap c.List cacheList).filter
        (fun kv => mapMem kv.1 (mergeMap c.PublicIps publicIps))
  ∧ (mapKeys (Publish (Cleanup (cacheAfterUnmarshal c cacheList publicIps))).1.List).all
      (fun k => mapMem k (mergeMap c.PublicIps publicIps)) = true := by
  refine ⟨?_, ?_, ?_⟩
  · simp [CacheLoad, h, cacheAfterUnmarshal]
  · simpa [Publish, cacheAfterUnmarshal] using
      Cleanup_List_eq_filter (cacheAfterUnmarshal c cacheList publicIps)
  · rw [show (Publish (Cleanup (cacheAfterUnmarshal c cacheList publicIps))).1 =
        Cleanup (cacheAfterUnmarshal c cacheList publicIps) from rfl]
    rw [Cleanup_List_eq_filter]
    simp only [mapKeys, List.all_eq_true, List.mem_map, cacheAfterUnmarshal]
    rintro k ⟨kv, hkv, rfl⟩
    exact (List.mem_filter.mp hkv).2

/-- Witness for C5 (amended) at a concrete snapshot load: the prior cache has
an entry for 10.0.0.9 (absent from the loaded discovery set), the snapshot has
entries for 10.0.0.2. -/
theorem cacheLoad_merge_cleanup_publish_witness :
    CacheLoad
        (fun _ => some (FileContent.snap [("10.0.0.2", [])]
          [("10.0.0.2", PublicIPAddress.mk (some "10.0.0.2"))]))
        "portscanner.json"
        (Portscanner.mk true [] [("10.0.0.9", [])]) =
      Except.ok
        ((Publish (Cleanup (cacheAfterUnmarshal
            (Portscanner.mk true [] [("10.0.0.9", [])])
            [("10.0.0.2", [])] [("10.0.0.2", PublicIPAddress.mk (some "10.0.0.2"))]))).1,
         (Publish (Cleanup (cacheAfterUnmarshal
            (Portscanner.mk true [] [("10.0.0.9", [])])
            [("10.0.0.2", [])] [("10.0.0.2", PublicIPAddress.mk (some "10.0.0.2"))]))).2,
         false)
  ∧ (Publish (Cleanup (cacheAfterUnmarshal
        (Portscanner.mk true [] [("10.0.0.9", [])])
        [("10.0.0.2", [])] [("10.0.0.2", PublicIPAddress.mk (some "10.0.0.2"))]))).1.List =
      (mergeMap [("10.0.0.9", [])] [("10.0.0.2", [])]).filter
        (fun kv => mapMem kv.1 (mergeMap [] [("10.0.0.2", PublicIPAddress.mk (some "10.0.0.2"))]))
  ∧ (mapKeys (Publish (Cleanup (cacheAfterUnmarshal
        (Portscanner.mk true [] [("10.0.0.9", [])])
        [("10.0.0.2", [])] [("10.0.0.2", PublicIPAddress.mk (some "10.0.0.2"))]))).1.List).all
      (fun k => mapMem k (mergeMap [] [("10.0.0.2", PublicIPAddress.mk (some "10.0.0.2"))])) = true :=
  cacheLoad_merge_cleanup_publish _ "portscanner.json" _ _ _ rfl

/-- C6 counterexample: a cache file whose contents fail to deserialize does
not make `CacheLoad` fail — it returns successfully (with the error merely
logged, the `true` flag), keeping the prior cache and still running `Cleanup`
and `Publish`, contrary to the claim that a corrupt file is fatal to the load
operation. -/
theorem cacheLoad_corrupt_not_fatal_counterexample :
    CacheLoad (fun _ => some FileContent.corrupt) "portscanner.json"
        Portscanner.Init =
      Except.ok (Portscanner.Init, [Event.resultCleanup], true) := by
  rfl

/-- C6 (amended): a missing file is fatal to `CacheLoad` (a reported panic); a
file whose contents fail to deserialize is reported but NOT fatal — the load
returns successfully with the prior cache, after running `Cleanup` and
`Publish`; a failed write is fatal to `CacheSave`, and a successful write
stores the snapshot of the two persisted fields. -/
theorem cacheLoad_cacheSave_error_model
    (fs : String → Option FileContent) (path : String) (c : Portscanner) :
    (fs path = none →
      CacheLoad fs path c = Except.error "panic: cannot open portscanner cache")
  ∧ (fs path = some FileContent.corrupt →
      CacheLoad fs path c =
        Except.ok ((Publish (Cleanup c)).1, (Publish (Cleanup c)).2, true))
  ∧ CacheSave false c = Except.error "panic: cannot write portscanner cache"
  ∧ CacheSave true c = Except.ok (FileContent.snap c.List c.PublicIps) := by
  refine ⟨?_, ?_, rfl, rfl⟩
  · intro h
    simp [CacheLoad, h]
  · intro h
    simp [CacheLoad, h]

/-- Witness for C6 (amended): the three file-system outcomes at concrete
inputs. -/
theorem cacheLoad_cacheSave_error_model_witness :
    CacheLoad (fun _ => none) "portscanner.json" Portscanner.Init =
      Except.error "panic: cannot open portscanner cache"
  ∧ CacheLoad (fun _ => some FileContent.corrupt) "other.json" Portscanner.Init =
      Except.ok ((Publish (Cleanup Portscanner.Init)).1,
        (Publish (Cleanup Portscanner.Init)).2, true)
  ∧ CacheSave false Portscanner.Init =
      Except.error "panic: cannot write portscanner cache" :=
  ⟨(cacheLoad_cacheSave_error_model (fun _ => none) "portscanner.json"
      Portscanner.Init).1 rfl,
   (cacheLoad_cacheSave_error_model (fun _ => some FileContent.corrupt)
      "other.json" Portscanner.Init).2.1 rfl,
   (cacheLoad_cacheSave_error_model (fun _ => some FileContent.corrupt)
      "other.json" Portscanner.Init).2.2.1⟩

/-- State of the bounded-concurrency scan pass of `Start()`: the addresses the
spawn loop has not yet reached, the scan tasks currently in flight
(`swg.Add` performed, `swg.Done` pending), and the finished tasks. -/
structure SwgState where
  pending : List String
  inflight : List String
  finished : List String
deriving DecidableEq, Repr

/-- Initial state of a scan pass: the spawn loop of `Start` iterates the
current discovery set, so the pending addresses are the keys of `PublicIps`. -/
def scanPassInit (c : Portscanner) : SwgState :=
  { pending := mapKeys c.PublicIps, inflight := [], finished := [] }

/-- One scheduler step of the scan pass with concurrency limit `K`
(`opts.Portscan.Parallel`): either the spawn loop performs `swg.Add` and
launches the next goroutine — possible only when fewer than `K` tasks are in
flight, because `sizedwaitgroup.Add` blocks while the limit is reached — or
some in-flight scan task finishes (`swg.Done`). -/
inductive SwgStep (K : Nat) : SwgState → SwgState → Prop
  | spawn (ip : String) (rest inflight finished : List String)
      (h : inflight.length < K) :
      SwgStep K ⟨ip :: rest, inflight, finished⟩ ⟨rest, ip :: inflight, finished⟩
  | finish (pending l1 l2 finished : List String) (ip : String) :
      SwgStep K ⟨pending, l1 ++ ip :: l2, finished⟩
        ⟨pending, l1 ++ l2, ip :: finished⟩

/-- Executions of the scan pass: reflexive-transitive closure of `SwgStep`. -/
inductive SwgReachable (K : Nat) : SwgState → SwgState → Prop
  | refl (s : SwgState) : SwgReachable K s s
  | step (s t u : SwgState) :
      SwgReachable K s t → SwgStep K t u → SwgReachable K s u

/-- Termination measure of the scan pass. -/
def swgMeasure (s : SwgState) : Nat :=
  2 * s.pending.length + s.inflight.length

theorem swgStep_inflight_le (K : Nat) {s t : SwgState} (h : SwgStep K s t)
    (hs : s.inflight.length ≤ K) : t.inflight.length ≤ K := by
  cases h with
  | spawn ip rest inflight finished hlt => simpa using hlt
  | finish pending l1 l2 finished ip =>
    simp only [List.length_append, List.length_cons] at hs ⊢
    omega

theorem swgReachable_inflight_le (K : Nat) {s t : SwgState}
    (h : SwgReachable K s t) (hs : s.inflight.length ≤ K) :
    t.inflight.length ≤ K := by
  induction h with
  | refl => exact hs
  | step t u hr hstep ih => exact swgStep_inflight_le K hstep ih

theorem swgStep_perm (K : Nat) {s t : SwgState} (h : SwgStep K s t) :
    (t.pending ++ t.inflight ++ t.finished).Perm
      (s.pending ++ s.inflight ++ s.finished) := by
  cases h with
  | spawn ip rest inflight finished hlt =>
    rw [List.perm_iff_count]
    intro a
    by_cases ha : a = ip <;>
      simp [List.count_append, List.count_cons, ha] <;> omega
  | finish pending l1 l2 finished ip =>
    rw [List.perm_iff_count]
    intro a
    by_cases ha : a = ip <;>
      simp [List.count_append, List.count_cons, ha] <;> omega

theorem swgReachable_perm (K : Nat) {s t : SwgState} (h : SwgReachable K s t) :
    (t.pending ++ t.inflight ++ t.finished).Perm
      (s.pending ++ s.inflight ++ s.finished) := by
  induction h with
  | refl => exact List.Perm.refl _
  | step t u hr hstep ih => exact (swgStep_perm K hstep).trans ih

theorem swg_progress (K : Nat) (hK : 0 < K) (t : SwgState)
    (hne : ¬(t.pending = [] ∧ t.inflight = [])) : ∃ u, SwgStep K t u := by
  obtain ⟨pending, inflight, finished⟩ := t
  cases inflight with
  | cons ip rest =>
    exact ⟨⟨pending, rest, ip :: finished⟩, SwgStep.finish pending [] rest finished ip⟩
  | nil =>
    cases pending with
    | nil => exact absurd ⟨rfl, rfl⟩ hne
    | cons ip rest =>
      exact ⟨⟨rest, [ip], finished⟩, SwgStep.spawn ip rest [] finished (by simpa using hK)⟩

theorem swgStep_measure (K : Nat) {s t : SwgState} (h : SwgStep K s t) :
    swgMeasure t < swgMeasure s := by
  cases h with
  | spawn ip rest inflight finished hlt =>
    simp [swgMeasure]
    omega
  | finish pending l1 l2 finished ip =>
    simp [swgMeasure, List.length_append]

/-- C9: with concurrency limit `K ≥ 1`, every state of a scan-pass execution
has at most `K` probe tasks in flight; a finished execution (no pending
spawn, nothing in flight) has spawned and completed one scan task per address
of the discovery set; no execution gets stuck before that point; and every
step decreases a measure, so every execution reaches that point. -/
theorem scan_pass_bounded_concurrency (K : Nat) (c : Portscanner)
    (t : SwgState) (hK : 0 < K) (h : SwgReachable K (scanPassInit c) t) :
    t.inflight.length ≤ K
  ∧ (t.pending = [] ∧ t.inflight = [] →
      t.finished.Perm (mapKeys c.PublicIps))
  ∧ (¬(t.pending = [] ∧ t.inflight = []) → ∃ u, SwgStep K t u)
  ∧ (∀ u, SwgStep K t u → swgMeasure u < swgMeasure t) := by
  refine ⟨?_, ?_, swg_progress K hK t, fun u hu => swgStep_measure K hu⟩
  · exact swgReachable_inflight_le K h (by simp [scanPassInit])
  · rintro ⟨hp, hi⟩
    have hperm := swgReachable_perm K h
    simpa [scanPassInit, hp, hi] using hperm

/-- Concrete portscanner used to witness the bounded-concurrency theorem. -/
def psW : Portscanner :=
  Portscanner.mk true [("10.0.0.7", PublicIPAddress.mk (some "10.0.0.7"))] []

/-- Witness for C9: the theorem instantiated at limit 1, a one-address
discovery set and the initial state of the pass. -/
theorem scan_pass_bounded_concurrency_witness :
    (scanPassInit psW).inflight.length ≤ 1
  ∧ ((scanPassInit psW).pending = [] ∧ (scanPassInit psW).inflight = [] →
      (scanPassInit psW).finished.Perm (mapKeys psW.PublicIps))
  ∧ (¬((scanPassInit psW).pending = [] ∧ (scanPassInit psW).inflight = []) →
      ∃ u, SwgStep 1 (scanPassInit psW) u)
  ∧ (∀ u, SwgStep 1 (scanPassInit psW) u →
      swgMeasure u < swgMeasure (scanPassInit psW)) :=
  scan_pass_bounded_concurrency 1 psW (scanPassInit psW) (by decide)
    (SwgReachable.refl (scanPassInit psW))

/-- Label set of a gauge sample (`prometheus.Labels`), as the ordered list of
label pairs the source constructs. -/
abbrev GaugeLabels := List (String × String)

/-- A prometheus gauge vector: samples keyed by their label set.  `With(...).Set`
replaces the sample carrying the same labels; `Reset()` empties the vector.
Values are `float64` in the source, but every value written by this program is
an integer (0, 1, or an integral quota counter), modelled as `Int`. -/
abbrev GaugeVec := List (GaugeLabels × Int)

/-- `vec.With(labels).Set(v)`. -/
def gaugeSet (labels : GaugeLabels) (v : Int) (vec : GaugeVec) : GaugeVec :=
  mapInsert labels v vec

/-- The package-level gauge vectors registered by `initMetricsAzureRm`. -/
structure Gauges where
  subscription : GaugeVec
  resourceGroup : GaugeVec
  publicIp : GaugeVec
  apiQuota : GaugeVec
  quota : GaugeVec
  quotaCurrent : GaugeVec
  quotaLimit : GaugeVec
deriving DecidableEq, Repr

/-- The gauge state with all vectors empty. -/
def emptyGauges : Gauges :=
  { subscription := [], resourceGroup := [], publicIp := [], apiQuota := [],
    quota := [], quotaCurrent := [], quotaLimit := [] }

/-- The subscription object returned by `subscriptionClient.Get`, with the
fields the source reads.  `rateLimitHeaders` models the HTTP response headers
already parsed with `strconv.ParseFloat` (rate-limit counters are integral):
`some v` means the header is present and parses to `v`; `none` means it is
absent, or malformed — a malformed value only logs a warning and skips the
metric, same observable gauge effect as an absent header. -/
structure SubInfo where
  subscriptionID : String
  displayName : String
  spendingLimit : String
  quotaID : String
  locationPlacementID : String
  rateLimitHeaders : String → Option Int

/-- One resource group returned by `resourceGroupClient.ListComplete`. -/
structure RgInfo where
  name : String
  location : String
  tags : List (String × String)
deriving DecidableEq, Repr

/-- One public-ip resource returned by `netPublicIpClient.ListAll`. -/
structure PipInfo where
  id : String
  location : String
  ipAddress : Option String
  allocationMethod : String
  ipVersion : String
deriving DecidableEq, Repr

/-- One usage/quota row returned by a usage client. `CurrentValue` is `*int32`
and `Limit` is `*int64` in the SDK, both cast to `float64`; modelled as `Int`. -/
structure UsageInfo where
  name : String
  localizedName : String
  currentValue : Int
  limit : Int
deriving DecidableEq, Repr

/-- The external collaborators of one scrape cycle: the configured
subscriptions (`AzureSubscriptions`), locations (`opts.AzureLocation`),
resource-group tag keys (`opts.AzureResourceGroupTags`) with their label name
prefix (`AZURE_RESOURCEGROUP_TAG_PREFIX`, a constant defined outside src/),
and the provider API endpoints, each returning data or a fetch error. -/
structure MetricsEnv where
  subscriptions : List String
  locations : List String
  rgTags : List String
  rgTagPre : String
  subGet : String → Except String SubInfo
  rgList : String → Except String (List RgInfo)
  pipList : String → Except String (List PipInfo)
  computeUsageList : String → String → Except String (List UsageInfo)
  storageUsageList : String → Except String (List UsageInfo)

/-- `probeProcessHeader(response, header, labels)`: if the header is present
and parses, set the api-quota gauge; otherwise leave the gauges unchanged. -/
def probeProcessHeader (sub : SubInfo) (header : String) (labels : GaugeLabels)
    (g : Gauges) : Gauges :=
  match sub.rateLimitHeaders header with
  | some v => { g with apiQuota := gaugeSet labels v g.apiQuota }
  | none => g

/-- `collectAzureSubscription`: fetch the subscription (`panic` on error —
modelled as the `true` flag), set the subscription info gauge, then probe the
six rate-limit headers.  No gauge vector is reset by this task. -/
def collectAzureSubscription (env : MetricsEnv) (subscriptionId : String)
    (g : Gauges) : Gauges × Bool :=
  match env.subGet subscriptionId with
  | Except.error _ => (g, true)
  | Except.ok sub =>
    let g1 := { g with subscription := (gaugeSet
        [("subscriptionID", sub.subscriptionID),
         ("subscriptionName", sub.displayName),
         ("spendingLimit", sub.spendingLimit),
         ("quotaID", sub.quotaID),
         ("locationPlacementID", sub.locationPlacementID)] 1 g.subscription) }
    let g2 := probeProcessHeader sub
        "x-ms-ratelimit-remaining-subscription-reads"
        [("subscriptionID", subscriptionId), ("scope", "subscription"),
         ("type", "read")] g1
    let g3 := probeProcessHeader sub
        "x-ms-ratelimit-remaining-subscription-resource-requests"
        [("subscriptionID", subscriptionId), ("scope", "subscription"),
         ("type", "resource-requests")] g2
    let g4 := probeProcessHeader sub
        "x-ms-ratelimit-remaining-subscription-resource-entities-read"
        [("subscriptionID", subscriptionId), ("scope", "subscription"),
         ("type", "resource-entities-read")] g3
    let g5 := probeProcessHeader sub
        "x-ms-ratelimit-remaining-tenant-reads"
        [("subscriptionID", subscriptionId), ("scope", "tenant"),
         ("type", "read")] g4
    let g6 := probeProcessHeader sub
        "x-ms-ratelimit-remaining-tenant-resource-requests"
        [("subscriptionID", subscriptionId), ("scope", "tenant"),
         ("type", "resource-requests")] g5
    let g7 := probeProcessHeader sub
        "x-ms-ratelimit-remaining-tenant-resource-entities-read"
        [("subscriptionID", subscriptionId), ("scope", "tenant"),
         ("type", "resource-entities-read")] g6
    (g7, false)

/-- The label set built for one resource group, including one label per
configured tag key (empty string when the resource group lacks the tag). -/
def rgLabels (env : MetricsEnv) (subscriptionId : String) (item : RgInfo) :
    GaugeLabels :=
  [("subscriptionID", subscriptionId), ("resourceGroup", item.name),
   ("location", item.location)] ++
  env.rgTags.map (fun rgTag =>
    (env.rgTagPre ++ rgTag, (mapLookup rgTag item.tags).getD ""))

/-- `collectAzureResourceGroup`: fetch the groups (`panic` on error), set the
resource-group info gauge per group.  No gauge vector is reset by this task. -/
def collectAzureResourceGroup (env : MetricsEnv) (subscriptionId : String)
    (g : Gauges) : Gauges × Bool :=
  match env.rgList subscriptionId with
  | Except.error _ => (g, true)
  | Except.ok items =>
    ({ g with resourceGroup := (items.foldl
        (fun vec item => gaugeSet (rgLabels env subscriptionId item) 1 vec)
        g.resourceGroup) }, false)

/-- The first capture of the `/resourceGroups/([^/]*)` regular expression on a
resource id: the segment following the first `/resourceGroups/`, up to the
next slash. -/
def extractResourceGroupFromId (id : String) : String :=
  match id.splitOn "/resourceGroups/" with
  | _ :: afterFirst :: _ => ((afterFirst.splitOn "/").headD "")
  | _ => ""

/-- One iteration of the `collectAzurePublicIp` loop: one public-ip gauge
sample per resource (allocated addresses get value 1 and are appended to the
returned address list; unallocated ones get label "not allocated" and 0). -/
def pipStep (subscriptionId : String) (acc : Gauges × List String)
    (val : PipInfo) : Gauges × List String :=
  let ipAddress := val.ipAddress.getD "not allocated"
  let gaugeValue : Int := if val.ipAddress.isSome then 1 else 0
  let ipList := match val.ipAddress with
    | some ip => acc.2 ++ [ip]
    | none => acc.2
  let resourceGroup := extractResourceGroupFromId val.id
  ({ acc.1 with publicIp := (gaugeSet
      [("subscriptionID", subscriptionId), ("resourceGroup", resourceGroup),
       ("location", val.location), ("ipAddress", ipAddress),
       ("ipAllocationMethod", val.allocationMethod),
       ("ipAdressVersion", val.ipVersion)] gaugeValue acc.1.publicIp) },
   ipList)

/-- `collectAzurePublicIp`: fetch all public ips (`panic` on error), set one
gauge sample per resource, and return the discovered address list (sent to
the aggregation channel in the source).  No gauge vector is reset by this
task. -/
def collectAzurePublicIp (env : MetricsEnv) (subscriptionId : String)
    (g : Gauges) : (Gauges × List String) × Bool :=
  match env.pipList subscriptionId with
  | Except.error _ => ((g, []), true)
  | Except.ok vals => (vals.foldl (pipStep subscriptionId) (g, []), false)

/-- The three quota gauge writes performed per usage row. -/
def setQuotaUsage (subscriptionId location scope : String) (g : Gauges)
    (val : UsageInfo) : Gauges :=
  let labels : GaugeLabels :=
    [("subscriptionID", subscriptionId), ("location", location),
     ("scope", scope), ("quota", val.name)]
  let infoLabels : GaugeLabels := labels ++ [("quotaName", val.localizedName)]
  { g with quota := gaugeSet infoLabels 1 g.quota,
           quotaCurrent := gaugeSet labels val.currentValue g.quotaCurrent,
           quotaLimit := gaugeSet labels val.limit g.quotaLimit }

/-- The per-location loop of `collectAzureComputeUsage`: fetch the compute
usage for the location (`panic` on error, ending the loop and the task with
the already-performed writes kept) and write the three quota gauges per row,
scope "compute". -/
def computeUsageLoop (env : MetricsEnv) (subscriptionId : String) :
    List String → Gauges → Gauges × Bool
  | [], g => (g, false)
  | location :: rest, g =>
    match env.computeUsageList subscriptionId location with
    | Except.error _ => (g, true)
    | Except.ok vals =>
      computeUsageLoop env subscriptionId rest
        (vals.foldl (setQuotaUsage subscriptionId location "compute") g)

/-- `collectAzureComputeUsage`: the location loop over the configured
locations.  No gauge vector is reset by this task. -/
def collectAzureComputeUsage (env : MetricsEnv) (subscriptionId : String)
    (g : Gauges) : Gauges × Bool :=
  computeUsageLoop env subscriptionId env.locations g

/-- The per-location loop of `collectAzureStorageUsage`.  As in the source,
the storage usage listing takes no location parameter — the same listing is
fetched once per configured location and labelled with that location, scope
"storage". -/
def storageUsageLoop (env : MetricsEnv) (subscriptionId : String) :
    List String → Gauges → Gauges × Bool
  | [], g => (g, false)
  | location :: rest, g =>
    match env.storageUsageList subscriptionId with
    | Except.error _ => (g, true)
    | Except.ok vals =>
      storageUsageLoop env subscriptionId rest
        (vals.foldl (setQuotaUsage subscriptionId location "storage") g)

/-- `collectAzureStorageUsage`: the location loop.  No gauge vector is reset
by this task. -/
def collectAzureStorageUsage (env : MetricsEnv) (subscriptionId : String)
    (g : Gauges) : Gauges × Bool :=
  storageUsageLoop env subscriptionId env.locations g

/-- The per-subscription tasks of one scrape cycle, in spawn order
(subscription, resource groups, public ips, compute usage, storage usage; the
network-usage task is disabled in the source).  The source spawns these as
goroutines and `panic`s inside a task on a fetch error; an unrecovered panic
in any goroutine terminates the whole Go process, so the cycle is modelled
under the deterministic sequential schedule that runs the tasks in spawn
order and stops at the first panic.  The `Bool` is `true` when a task
panicked (process death in the source). -/
def runSubscriptionTasks (env : MetricsEnv) (subscriptionId : String)
    (g : Gauges) : (Gauges × List String) × Bool :=
  let sub := collectAzureSubscription env subscriptionId g
  if sub.2 then ((sub.1, []), true) else
  let rg := collectAzureResourceGroup env subscriptionId sub.1
  if rg.2 then ((rg.1, []), true) else
  let pip := collectAzurePublicIp env subscriptionId rg.1
  if pip.2 then (pip.1, true) else
  let cu := collectAzureComputeUsage env subscriptionId pip.1.1
  if cu.2 then ((cu.1, pip.1.2), true) else
  let su := collectAzureStorageUsage env subscriptionId cu.1
  ((su.1, pip.1.2), su.2)

/-- The subscription loop of `runMetricsCollectionAzureRm`, accumulating the
public-ip lists drained from the aggregation channel. -/
def subscriptionsLoop (env : MetricsEnv) :
    List String → Gauges × List String → (Gauges × List String) × Bool
  | [], acc => (acc, false)
  | subscriptionId :: rest, acc =>
    let r := runSubscriptionTasks env subscriptionId acc.1
    if r.2 then ((r.1.1, acc.2 ++ r.1.2), true)
    else subscriptionsLoop env rest (r.1.1, acc.2 ++ r.1.2)

/-- `runMetricsCollectionAzureRm()`: reset the resource-group and public-ip
gauge vectors — the only `Reset` calls of the whole cycle; the subscription,
api-quota and the three quota vectors are never reset — then run the
per-subscription collector tasks.  Modelled under the sequential spawn-order
schedule; the `Bool` is `true` when some task panicked, which in the source
kills the process. -/
def runMetricsCollectionAzureRm (env : MetricsEnv) (g : Gauges) :
    (Gauges × List String) × Bool :=
  let g0 := { g with resourceGroup := [], publicIp := [] }
  subscriptionsLoop env env.subscriptions (g0, [])

@[simp]
theorem probeProcessHeader_quota (sub : SubInfo) (header : String)
    (labels : GaugeLabels) (g : Gauges) :
    (probeProcessHeader sub header labels g).quota = g.quota := by
  cases h : sub.rateLimitHeaders header <;> simp [probeProcessHeader, h]

@[simp]
theorem probeProcessHeader_quotaCurrent (sub : SubInfo) (header : String)
    (labels : GaugeLabels) (g : Gauges) :
    (probeProcessHeader sub header labels g).quotaCurrent = g.quotaCurrent := by
  cases h : sub.rateLimitHeaders header <;> simp [probeProcessHeader, h]

@[simp]
theorem probeProcessHeader_quotaLimit (sub : SubInfo) (header : String)
    (labels : GaugeLabels) (g : Gauges) :
    (probeProcessHeader sub header labels g).quotaLimit = g.quotaLimit := by
  cases h : sub.rateLimitHeaders header <;> simp [probeProcessHeader, h]

@[simp]
theorem probeProcessHeader_resourceGroup (sub : SubInfo) (header : String)
    (labels : GaugeLabels) (g : Gauges) :
    (probeProcessHeader sub header labels g).resourceGroup = g.resourceGroup := by
  cases h : sub.rateLimitHeaders header <;> simp [probeProcessHeader, h]

@[simp]
theorem pipStep_foldl_quota (sid : String) (vals : List PipInfo) :
    ∀ acc : Gauges × List String,
      (vals.foldl (pipStep sid) acc).1.quota = acc.1.quota := by
  induction vals with
  | nil => intro acc; rfl
  | cons val rest ih =>
    intro acc
    rw [List.foldl_cons, ih]
    simp [pipStep]

@[simp]
theorem pipStep_foldl_quotaCurrent (sid : String) (vals : List PipInfo) :
    ∀ acc : Gauges × List String,
      (vals.foldl (pipStep sid) acc).1.quotaCurrent = acc.1.quotaCurrent := by
  induction vals with
  | nil => intro acc; rfl
  | cons val rest ih =>
    intro acc
    rw [List.foldl_cons, ih]
    simp [pipStep]

@[simp]
theorem pipStep_foldl_quotaLimit (sid : String) (vals : List PipInfo) :
    ∀ acc : Gauges × List String,
      (vals.foldl (pipStep sid) acc).1.quotaLimit = acc.1.quotaLimit := by
  induction vals with
  | nil => intro acc; rfl
  | cons val rest ih =>
    intro acc
    rw [List.foldl_cons, ih]
    simp [pipStep]

@[simp]
theorem pipStep_foldl_resourceGroup (sid : String) (vals : List PipInfo) :
    ∀ acc : Gauges × List String,
      (vals.foldl (pipStep sid) acc).1.resourceGroup = acc.1.resourceGroup := by
  induction vals with
  | nil => intro acc; rfl
  | cons val rest ih =>
    intro acc
    rw [List.foldl_cons, ih]
    simp [pipStep]

/-- C4: evaluation of the scrape cycle at a failing subscription fetch.  The
collector `panic`s on the fetch error with no `recover` in the goroutine, so
the panic kills the whole process: the cycle itself aborts (flag `true`) and
the sibling collectors produce nothing — here the resource-group fetch would
have succeeded, yet the resource-group vector stays empty after its reset —
contradicting the claim that the failure is contained at the task boundary
while siblings and the rest of the cycle continue. -/
theorem collector_fetch_failure_kills_cycle :
    runMetricsCollectionAzureRm
        { subscriptions := ["S"], locations := ["westeurope"], rgTags := [],
          rgTagPre := "tag_",
          subGet := fun _ => Except.error "401 unauthorized",
          rgList := fun _ =>
            Except.ok [{ name := "rg1", location := "westeurope", tags := [] }],
          pipList := fun _ => Except.ok [],
          computeUsageList := fun _ _ => Except.ok [],
          storageUsageList := fun _ => Except.ok [] }
        emptyGauges =
      ((emptyGauges, []), true) := by
  rfl

/-- C8 counterexample: the compute-usage collector does not reset the quota
gauge vectors before writing (no collector task of this file resets anything):
after a fully successful compute-usage collection, a stale sample left by an
earlier cycle survives in `quotaCurrent` next to the freshly written one. -/
theorem computeUsage_no_reset_counterexample :
    (collectAzureComputeUsage
        { subscriptions := ["S"], locations := ["westeurope"], rgTags := [],
          rgTagPre := "tag_",
          subGet := fun _ => Except.error "",
          rgList := fun _ => Except.ok [],
          pipList := fun _ => Except.ok [],
          computeUsageList := fun _ _ => Except.ok
            [{ name := "cores", localizedName := "Total Regional Cores",
               currentValue := 3, limit := 10 }],
          storageUsageList := fun _ => Except.ok [] }
        "S"
        { emptyGauges with quotaCurrent :=
            [([("subscriptionID", "S"), ("location", "westeurope"),
               ("scope", "compute"), ("quota", "stale")], 5)] }).1.quotaCurrent =
      [([("subscriptionID", "S"), ("location", "westeurope"),
         ("scope", "compute"), ("quota", "stale")], 5),
       ([("subscriptionID", "S"), ("location", "westeurope"),
         ("scope", "compute"), ("quota", "cores")], 3)] := by
  rfl

/-- C8 (amended): the scheduler — not the collector tasks — resets exactly the
resource-group and public-ip vectors, once at the start of the cycle, and the
quota vectors are never reset by anyone.  Hence in a cycle whose compute-quota
fetch fails while the subscription, resource-group and public-ip fetches
succeed, the three quota vectors keep exactly their prior-cycle samples
(untouched because the quota task performs no reset at all, not because it
aborted before one), the resource-group vector is rebuilt from the successful
fetch, and the failing fetch panics, aborting the cycle — and, in the source,
the process — before the storage task runs. -/
theorem failed_quota_fetch_leaves_quota_gauges
    (env : MetricsEnv) (g : Gauges) (sid : String) (sub : SubInfo)
    (items : List RgInfo) (vals : List PipInfo) (e : String)
    (loc : String) (locRest : List String)
    (hsubs : env.subscriptions = [sid])
    (hsub : env.subGet sid = Except.ok sub)
    (hrg : env.rgList sid = Except.ok items)
    (hpip : env.pipList sid = Except.ok vals)
    (hloc : env.locations = loc :: locRest)
    (hfail : env.computeUsageList sid loc = Except.error e) :
    (runMetricsCollectionAzureRm env g).2 = true
  ∧ (runMetricsCollectionAzureRm env g).1.1.quota = g.quota
  ∧ (runMetricsCollectionAzureRm env g).1.1.quotaCurrent = g.quotaCurrent
  ∧ (runMetricsCollectionAzureRm env g).1.1.quotaLimit = g.quotaLimit
  ∧ (runMetricsCollectionAzureRm env g).1.1.resourceGroup =
      items.foldl (fun vec item => gaugeSet (rgLabels env sid item) 1 vec) [] := by
  simp [runMetricsCollectionAzureRm, hsubs, subscriptionsLoop,
    runSubscriptionTasks, collectAzureSubscription, hsub,
    collectAzureResourceGroup, hrg, collectAzurePublicIp, hpip,
    collectAzureComputeUsage, hloc, computeUsageLoop, hfail]

/-- Environment used to witness the amended C8 theorem: one subscription with
succeeding subscription, resource-group and public-ip fetches and a failing
compute-usage fetch. -/
def c8Env : MetricsEnv :=
  { subscriptions := ["S"], locations := ["westeurope"], rgTags := [],
    rgTagPre := "tag_",
    subGet := fun _ => Except.ok
      { subscriptionID := "S", displayName := "mySub", spendingLimit := "Off",
        quotaID := "q1", locationPlacementID := "lp1",
        rateLimitHeaders := fun _ => some 11999 },
    rgList := fun _ =>
      Except.ok [{ name := "rg1", location := "westeurope", tags := [] }],
    pipList := fun _ => Except.ok [],
    computeUsageList := fun _ _ => Except.error "429 too many requests",
    storageUsageList := fun _ => Except.ok [] }

/-- Prior-cycle quota gauge state used to witness the amended C8 theorem. -/
def c8Prior : Gauges :=
  { emptyGauges with
      quota := [([("subscriptionID", "S"), ("location", "westeurope"),
        ("scope", "compute"), ("quota", "cores"),
        ("quotaName", "Total Regional Cores")], 1)],
      quotaCurrent := [([("subscriptionID", "S"), ("location", "westeurope"),
        ("scope", "compute"), ("quota", "cores")], 7)],
      quotaLimit := [([("subscriptionID", "S"), ("location", "westeurope"),
        ("scope", "compute"), ("quota", "cores")], 20)] }

/-- Witness for C8 (amended) at the concrete failing-quota cycle. -/
theorem failed_quota_fetch_leaves_quota_gauges_witness :
    (runMetricsCollectionAzureRm c8Env c8Prior).2 = true
  ∧ (runMetricsCollectionAzureRm c8Env c8Prior).1.1.quota = c8Prior.quota
  ∧ (runMetricsCollectionAzureRm c8Env c8Prior).1.1.quotaCurrent =
      c8Prior.quotaCurrent
  ∧ (runMetricsCollectionAzureRm c8Env c8Prior).1.1.quotaLimit =
      c8Prior.quotaLimit
  ∧ (runMetricsCollectionAzureRm c8Env c8Prior).1.1.resourceGroup =
      [({ name := "rg1", location := "westeurope", tags := [] } : RgInfo)].foldl
        (fun vec item => gaugeSet (rgLabels c8Env "S" item) 1 vec) [] :=
  failed_quota_fetch_leaves_quota_gauges c8Env c8Prior "S"
    { subscriptionID := "S", displayName := "mySub", spendingLimit := "Off",
      quotaID := "q1", locationPlacementID := "lp1",
      rateLimitHeaders := fun _ => some 11999 }
    [{ name := "rg1", location := "westeurope", tags := [] }]
    [] "429 too many requests" "westeurope" [] rfl rfl rfl rfl rfl rfl
